import Mathlib

/-!
# power.stats service of device_xiaomi_daisy

A shallow embedding of `powerstats/service.cpp`: the configuration literals
built by `main`, the tick-to-millisecond transform, and the order of the calls
`main` makes on the service, the providers and the IPC transport. The library
classes `main` drives (registry, text parser) are not part of the sources; the
parts of them the properties need are modelled from the specification and
marked so.
-/

namespace PowerStatsService

/-! ## Numeric transform (service.cpp:64-65) -/

/-- Number of values of a `uint64_t`. -/
def U64 : Nat := 2 ^ 64

/-- The constant `RPM_CLK` of service.cpp:64. -/
def RPM_CLK : Nat := 19200

/-- The lambda `rpmConvertToMs` of service.cpp:65, `a / RPM_CLK` on `uint64_t`;
the argument is a `uint64_t` value, the result is reduced to `uint64_t`. -/
def rpmConvertToMs (a : Nat) : Nat := (a / RPM_CLK) % U64

/-! ## Configuration records -/

/-- Modelled from the spec: the declaration of `StateResidencyConfig` (library
header, absent from the sources). Fields are those named by the designated
initialisers of service.cpp:67-75 and 99-112, plus the entry-count transform the
spec gives every field; a member left out of an initialiser is empty, false or
a null function. -/
structure StateResidencyConfig where
  name : String := ""
  header : String := ""
  entryCountSupported : Bool := false
  entryCountPrefix : String := ""
  entryCountTransform : Option (Nat → Nat) := none
  totalTimeSupported : Bool := false
  totalTimePrefix : String := ""
  totalTimeTransform : Option (Nat → Nat) := none
  lastEntrySupported : Bool := false
  lastEntryPrefix : String := ""
  lastEntryTransform : Option (Nat → Nat) := none

/-- Modelled from the spec: the declaration of `PowerEntityConfig` (library
header, absent from the sources), built at service.cpp:81 from a name and the
state configurations and at service.cpp:118 from the state configurations
alone. -/
structure PowerEntityConfig where
  header : String := ""
  states : List StateResidencyConfig

/-- The entity kinds used by `main` (generated HIDL enum). -/
inductive PowerEntityType where
  | SUBSYSTEM
  | POWER_DOMAIN
  deriving DecidableEq, Repr

/-- The vector `rpmStateResidencyConfigs` of service.cpp:66-75. -/
def rpmStateResidencyConfigs : List StateResidencyConfig :=
  [{ name := "XO_shutdown",
     entryCountSupported := true,
     entryCountPrefix := "xo_count:",
     totalTimeSupported := true,
     totalTimePrefix := "xo_accumulated_duration:",
     totalTimeTransform := some rpmConvertToMs,
     lastEntrySupported := true,
     lastEntryPrefix := "xo_last_entered_at:",
     lastEntryTransform := some rpmConvertToMs }]

/-- The vector `socStateResidencyConfigs` of service.cpp:98-112. -/
def socStateResidencyConfigs : List StateResidencyConfig :=
  [{ name := "XO_shutdown",
     header := "RPM Mode:vlow",
     entryCountSupported := true,
     entryCountPrefix := "count:",
     totalTimeSupported := true,
     totalTimePrefix := "actual last sleep(msec):",
     lastEntrySupported := false },
   { name := "VMIN",
     header := "RPM Mode:vmin",
     entryCountSupported := true,
     entryCountPrefix := "count:",
     totalTimeSupported := true,
     totalTimePrefix := "actual last sleep(msec):",
     lastEntrySupported := false }]

/-- A state configuration is well formed when its name is non-empty, every
supported field has a non-empty prefix, and only supported fields carry a
transform. -/
def StateResidencyConfig.WellFormed (c : StateResidencyConfig) : Prop :=
  c.name ≠ "" ∧
  (c.entryCountSupported = true → c.entryCountPrefix ≠ "") ∧
  (c.totalTimeSupported = true → c.totalTimePrefix ≠ "") ∧
  (c.lastEntrySupported = true → c.lastEntryPrefix ≠ "") ∧
  (c.entryCountTransform.isSome = true → c.entryCountSupported = true) ∧
  (c.totalTimeTransform.isSome = true → c.totalTimeSupported = true) ∧
  (c.lastEntryTransform.isSome = true → c.lastEntrySupported = true)

/-! ## Text parsing rules of the generic provider -/

/-- Modelled from the spec: the lines of a source text (library parser, absent
from the sources); a line ends at a newline character. -/
def splitLines : List Char → List (List Char)
  | [] => [[]]
  | c :: cs =>
      if c = '\n' then [] :: splitLines cs
      else
        match splitLines cs with
        | [] => [[c]]
        | l :: ls => (c :: l) :: ls

/-- The number written by a string of decimal digits, most significant first. -/
def decimalValue (s : List Char) : Nat :=
  s.foldl (fun acc c => 10 * acc + (c.toNat - 48)) 0

/-- Modelled from the spec: parsing the text that trails a prefix as an
unsigned integer (library parser, absent from the sources). Text that is empty,
holds a non-digit, or does not fit the `uint64_t` the transforms take is a
`ParseError`, reported as `none`. -/
def parseUnsigned (s : List Char) : Option Nat :=
  if s ≠ [] ∧ s.all Char.isDigit = true ∧ decimalValue s < U64 then
    some (decimalValue s)
  else none

/-- Modelled from the spec: the scan for a line beginning with a literal
prefix (library parser, absent from the sources); returns the text trailing
the prefix on the first such line. -/
def findLine (p : List Char) : List (List Char) → Option (List Char)
  | [] => none
  | l :: ls => if p.isPrefixOf l then some (l.drop p.length) else findLine p ls

/-- Modelled from the spec: one field of one state (library parser, absent
from the sources). A field that is not supported is absent; a supported field
is the transform (identity when none is configured) of the integer parsed on
the first line of the scope that begins with the prefix, and absent when there
is no such line or the text does not parse. -/
def extractField (supported : Bool) (pfx : String) (transform : Option (Nat → Nat))
    (scope : List (List Char)) : Option Nat :=
  if supported then
    match findLine pfx.toList scope with
    | none => none
    | some rest =>
        match parseUnsigned rest, transform with
        | none, _ => none
        | some v, some f => some (f v)
        | some v, none => some v
  else none

/-- The section headers configured for the states of one entity. -/
def headersOf (states : List StateResidencyConfig) : List (List Char) :=
  (states.filter (fun c => c.header != "")).map (fun c => c.header.toList)

/-- A line that carries one of the configured headers. -/
def isHeaderLine (headers : List (List Char)) (l : List Char) : Bool :=
  headers.any (fun h => h.isPrefixOf l)

/-- Modelled from the spec: header scoping (library parser, absent from the
sources). The scope of header `h` is made of the lines after the first line
that begins with `h` and before the next line that begins with a configured
header; it is empty when no line begins with `h`. -/
def sectionAfter (headers : List (List Char)) (h : List Char) :
    List (List Char) → List (List Char)
  | [] => []
  | l :: ls =>
      if h.isPrefixOf l then ls.takeWhile (fun x => !isHeaderLine headers x)
      else sectionAfter headers h ls

/-- Modelled from the spec: the lines searched for one state (library parser,
absent from the sources): the whole text when the state has no header, the
header's section otherwise. -/
def stateScope (headers : List (List Char)) (cfg : StateResidencyConfig)
    (lines : List (List Char)) : List (List Char) :=
  if cfg.header = "" then lines else sectionAfter headers cfg.header.toList lines

/-- Modelled from the spec: `EntityStateResidencyResult` without the entity id:
the state name and the three optional fields. -/
structure StateResidencyResult where
  state : String
  entryCount : Option Nat
  totalTime : Option Nat
  lastEntry : Option Nat
  deriving DecidableEq, Repr

/-- Modelled from the spec: the result of one configured state on the lines of
a source text (library parser, absent from the sources). -/
def parseState (headers : List (List Char)) (cfg : StateResidencyConfig)
    (lines : List (List Char)) : StateResidencyResult :=
  { state := cfg.name,
    entryCount := extractField cfg.entryCountSupported cfg.entryCountPrefix
      cfg.entryCountTransform (stateScope headers cfg lines),
    totalTime := extractField cfg.totalTimeSupported cfg.totalTimePrefix
      cfg.totalTimeTransform (stateScope headers cfg lines),
    lastEntry := extractField cfg.lastEntrySupported cfg.lastEntryPrefix
      cfg.lastEntryTransform (stateScope headers cfg lines) }

/-- Modelled from the spec: the results of the states of one entity, in
declaration order (library parser, absent from the sources). -/
def parseStates (states : List StateResidencyConfig) (text : List Char) :
    List StateResidencyResult :=
  states.map (fun cfg => parseState (headersOf states) cfg (splitLines text))

/-- The configuration of the spec's concrete scenario: state `X`, prefixes
`count:` and `time:`, total time divided by 10. -/
def scenarioConfig : StateResidencyConfig :=
  { name := "X",
    entryCountSupported := true,
    entryCountPrefix := "count:",
    totalTimeSupported := true,
    totalTimePrefix := "time:",
    totalTimeTransform := some (fun x => x / 10) }

/-- In `ls`, the first line that begins with `p` is `p` followed by the decimal
digits of `v` and nothing else. -/
def FirstValue (p : String) (v : Nat) (ls : List (List Char)) : Prop :=
  ∃ pre post, ls = pre ++ (p.toList ++ Nat.toDigits 10 v) :: post ∧
    ∀ l ∈ pre, ¬ p.toList <+: l

/-- In `ls`, `sec` is the run of lines between the first line that begins with
`h` and the next line that begins with one of `headers` (or the end). -/
def IsSection (headers : List (List Char)) (h : String) (sec ls : List (List Char)) : Prop :=
  ∃ pre hl rest, ls = pre ++ hl :: (sec ++ rest) ∧ h.toList <+: hl ∧
    (∀ l ∈ pre, ¬ h.toList <+: l) ∧
    (∀ l ∈ sec, ∀ h' ∈ headers, ¬ h' <+: l) ∧
    (rest = [] ∨ ∃ r rs, rest = r :: rs ∧ ∃ h' ∈ headers, h' <+: r)

/-! ## Registry, providers and the calls of `main` -/

/-- The three provider objects `main` creates (`rpmSdp`, `socSdp`, `aidlSdp`). -/
inductive Provider where
  | rpmSdp
  | socSdp
  | aidlSdp
  deriving DecidableEq, Repr

/-- One entry of the registry's entity list. -/
structure PowerEntityInfo where
  powerEntityId : Nat
  powerEntityName : String
  type : PowerEntityType
  deriving DecidableEq, Repr

/-- Modelled from the spec: class `PowerStats` (library, absent from the
sources), as far as `main` uses it: an entity list, an id counter that starts at
a fixed base and grows by one per registration, and the set of attached
providers in attachment order. Ids are the registry's integers; `main` stores
each in a variable and hands it on unchanged, it computes nothing with them. -/
structure PowerStats where
  nextId : Nat
  entities : List PowerEntityInfo := []
  providers : List Provider := []

/-- Modelled from the spec: `PowerStats::addPowerEntity` (library, absent from
the sources): returns a freshly allocated id and appends one entry to the
entity list; it cannot fail. -/
def PowerStats.addPowerEntity : PowerStats → String → PowerEntityType → Nat × PowerStats
  | ⟨nextId, entities, providers⟩, name, type =>
      (nextId, ⟨nextId + 1, entities ++ [⟨nextId, name, type⟩], providers⟩)

/-- Modelled from the spec: `PowerStats::addStateResidencyDataProvider`
(library, absent from the sources): registers a provider against the core. -/
def PowerStats.addStateResidencyDataProvider : PowerStats → Provider → PowerStats
  | ⟨nextId, entities, providers⟩, p => ⟨nextId, entities, providers ++ [p]⟩

/-- Modelled from the spec: `listEntities()` (library, absent from the
sources): the ordered sequence of registered entities. -/
def PowerStats.listEntities (s : PowerStats) : List PowerEntityInfo := s.entities

/-- Modelled from the spec: class `GenericStateResidencyDataProvider` (library,
absent from the sources), as far as `main` uses it: the source path and the
entities bound to it with their parsing rules, in binding order. -/
structure GenericStateResidencyDataProvider where
  path : String
  bindings : List (Nat × PowerEntityConfig) := []

/-- Modelled from the spec: `GenericStateResidencyDataProvider::addEntity`
(library, absent from the sources): binds one entity id to this provider. -/
def GenericStateResidencyDataProvider.addEntity :
    GenericStateResidencyDataProvider → Nat → PowerEntityConfig →
      GenericStateResidencyDataProvider
  | ⟨path, bindings⟩, id, cfg => ⟨path, bindings ++ [(id, cfg)]⟩

/-- Modelled from the spec: class `AidlStateResidencyDataProvider` (library,
absent from the sources): entity ids paired with a name and state names. -/
structure AidlStateResidencyDataProvider where
  bindings : List (Nat × String × List String) := []

/-- A call `main` makes on a collaborator, with its arguments (and, for
`addPowerEntity`, the id it returned). -/
inductive Call where
  | initWithDriver (driver : String)
  | ALOGI (text : String)
  | ALOGE (text : String)
  | getBoolProperty (key : String) (dflt : Bool)
  | newPowerStats
  | newGenericProvider (p : Provider) (path : String)
  | newAidlProvider (p : Provider)
  | addPowerEntity (name : String) (type : PowerEntityType) (ret : Nat)
  | addEntity (p : Provider) (id : Nat) (cfg : PowerEntityConfig)
  | addStateResidencyDataProvider (p : Provider)
  | addService (name : String) (p : Provider)
  | startThreadPool
  | configureRpcThreadpool (maxThreads : Nat) (callerWillJoin : Bool)
  | registerAsService
  | joinRpcThreadpool

/-- The writes to the core's entity list, bindings and provider set. -/
def Call.isConfigWrite : Call → Bool
  | .addPowerEntity _ _ _ => true
  | .addEntity _ _ _ => true
  | .addStateResidencyDataProvider _ => true
  | _ => false

/-- The writes other than attaching the AIDL provider. -/
def Call.isTextConfigWrite : Call → Bool
  | .addPowerEntity _ _ _ => true
  | .addEntity _ _ _ => true
  | .addStateResidencyDataProvider p => p != .aidlSdp
  | _ => false

/-- The calls that publish an object to other processes or start a thread pool. -/
def Call.isPublish : Call → Bool
  | .addService _ _ => true
  | .startThreadPool => true
  | .registerAsService => true
  | _ => false

/-- The call `service->registerAsService()`. -/
def Call.isRegisterAsService : Call → Bool
  | .registerAsService => true
  | _ => false

/-- The provider and id of an `addEntity` call. -/
def Call.boundId : Call → Option (Provider × Nat)
  | .addEntity p id _ => some (p, id)
  | _ => none

/-- The provider of a `new GenericStateResidencyDataProvider(path)` call. -/
def Call.createdTextProvider : Call → Option (Provider × String)
  | .newGenericProvider p path => some (p, path)
  | _ => none

/-- The objects `main` owns, and the calls made so far in order. -/
structure World where
  service : PowerStats
  rpmSdp : Option GenericStateResidencyDataProvider := none
  socSdp : Option GenericStateResidencyDataProvider := none
  aidlSdp : Option AidlStateResidencyDataProvider := none
  trace : List Call := []

/-- Record one call. -/
def World.emit : World → Call → World
  | ⟨sv, r, so, ai, t⟩, c => ⟨sv, r, so, ai, t ++ [c]⟩

/-- The statement `new GenericStateResidencyDataProvider(path)` bound to `p`. -/
def World.newGenericProvider : World → Provider → String → World
  | ⟨sv, _, so, ai, t⟩, .rpmSdp, path =>
      ⟨sv, some { path := path }, so, ai, t ++ [.newGenericProvider .rpmSdp path]⟩
  | ⟨sv, r, _, ai, t⟩, .socSdp, path =>
      ⟨sv, r, some { path := path }, ai, t ++ [.newGenericProvider .socSdp path]⟩
  | ⟨sv, r, so, ai, t⟩, .aidlSdp, path =>
      ⟨sv, r, so, ai, t ++ [.newGenericProvider .aidlSdp path]⟩

/-- The statement `new AidlStateResidencyDataProvider()` bound to `p`. -/
def World.newAidlProvider : World → Provider → World
  | ⟨sv, r, so, _, t⟩, p => ⟨sv, r, so, some {}, t ++ [.newAidlProvider p]⟩

/-- The statement `service->addPowerEntity(name, type)`. -/
def World.addPowerEntity : World → String → PowerEntityType → Nat × World
  | ⟨sv, r, so, ai, t⟩, name, type =>
      match sv.addPowerEntity name type with
      | (id, sv1) => (id, ⟨sv1, r, so, ai, t ++ [.addPowerEntity name type id]⟩)

/-- The statement `p->addEntity(id, cfg)` on a text provider. -/
def World.addEntity : World → Provider → Nat → PowerEntityConfig → World
  | ⟨sv, r, so, ai, t⟩, .rpmSdp, id, cfg =>
      ⟨sv, r.map (·.addEntity id cfg), so, ai, t ++ [.addEntity .rpmSdp id cfg]⟩
  | ⟨sv, r, so, ai, t⟩, .socSdp, id, cfg =>
      ⟨sv, r, so.map (·.addEntity id cfg), ai, t ++ [.addEntity .socSdp id cfg]⟩
  | ⟨sv, r, so, ai, t⟩, .aidlSdp, id, cfg =>
      ⟨sv, r, so, ai, t ++ [.addEntity .aidlSdp id cfg]⟩

/-- The statement `service->addStateResidencyDataProvider(p)`. -/
def World.addStateResidencyDataProvider : World → Provider → World
  | ⟨sv, r, so, ai, t⟩, p =>
      ⟨sv.addStateResidencyDataProvider p, r, so, ai, t ++ [.addStateResidencyDataProvider p]⟩

/-- What `main` cannot decide itself: the value of `ro.debuggable` (`none` when
the property is unset or is not a boolean), the registry's fixed base id, the
statuses returned by `addService` and `registerAsService`, and whether
`joinRpcThreadpool` ever returns. -/
structure Env where
  roDebuggable : Option Bool
  base : Nat
  serviceStatus : Int
  status : Int
  joinReturns : Bool

/-- The status `android::OK`. -/
def OK : Int := 0

/-- The call `android::base::GetBoolProperty(key, dflt)` for `ro.debuggable`. -/
def Env.getBoolProperty (env : Env) (dflt : Bool) : Bool := env.roDebuggable.getD dflt

/-- The body of `if (isDebuggable)`, service.cpp:63-120. -/
def debuggableBlock (w : World) : World :=
  let w := w.newGenericProvider .rpmSdp "/d/rpm_master_stats"
  let (apssId, w) := w.addPowerEntity "APSS" .SUBSYSTEM
  let w := w.addEntity .rpmSdp apssId ⟨"APSS", rpmStateResidencyConfigs⟩
  let (mpssId, w) := w.addPowerEntity "MPSS" .SUBSYSTEM
  let w := w.addEntity .rpmSdp mpssId ⟨"MPSS", rpmStateResidencyConfigs⟩
  let (prontoId, w) := w.addPowerEntity "PRONTO" .SUBSYSTEM
  let w := w.addEntity .rpmSdp prontoId ⟨"PRONTO", rpmStateResidencyConfigs⟩
  let (lpassId, w) := w.addPowerEntity "LPASS" .SUBSYSTEM
  let w := w.addEntity .rpmSdp lpassId ⟨"LPASS", rpmStateResidencyConfigs⟩
  let (tzId, w) := w.addPowerEntity "TZ" .SUBSYSTEM
  let w := w.addEntity .rpmSdp tzId ⟨"TZ", rpmStateResidencyConfigs⟩
  let w := w.addStateResidencyDataProvider .rpmSdp
  let w := w.newGenericProvider .socSdp "/sys/power/system_sleep/stats"
  let (socId, w) := w.addPowerEntity "SoC" .POWER_DOMAIN
  let w := w.addEntity .socSdp socId ⟨"", socStateResidencyConfigs⟩
  w.addStateResidencyDataProvider .socSdp

/-- The result of running `main`: the exit code (`none` when
`joinRpcThreadpool` never returns) and the final objects and calls. -/
structure Outcome where
  exit : Option Int
  world : World

/-- The statements of `main` up to service.cpp:129: driver selection, the
property read, the registry, the `if (isDebuggable)` block and the AIDL
provider. -/
def setUp (env : Env) : World :=
  let w : World := { service := { nextId := env.base } }
  let w := w.emit (.initWithDriver "/dev/vndbinder")
  let w := w.emit (.ALOGI "power.stats service 1.0 is starting.")
  let w := w.emit (.getBoolProperty "ro.debuggable" false)
  let isDebuggable := env.getBoolProperty false
  let w := w.emit .newPowerStats
  let w := if isDebuggable then debuggableBlock w else w
  w.newAidlProvider .aidlSdp

/-- The statements of `main` from service.cpp:131 on: the two registrations
with their early returns, the thread pools and the join. -/
def registerAndJoin (env : Env) (w : World) : Outcome :=
  let w := w.emit (.addService "power.stats-vendor" .aidlSdp)
  if env.serviceStatus != OK then
    ⟨some 1, w.emit (.ALOGE "Unable to register power.stats-vendor service %d")⟩
  else
    let w := w.emit .startThreadPool
    let w := w.addStateResidencyDataProvider .aidlSdp
    let w := w.emit (.configureRpcThreadpool 1 true)
    let w := w.emit .registerAsService
    if env.status != OK then
      ⟨some 1, w.emit (.ALOGE "Could not register service for power.stats HAL Iface (%d), exiting.")⟩
    else
      let w := w.emit (.ALOGI "power.stats service is ready")
      let w := w.emit .joinRpcThreadpool
      if env.joinReturns then
        ⟨some 1, w.emit (.ALOGE "power.stats service is shutting down")⟩
      else
        ⟨none, w⟩

/-- The function `main` of service.cpp:53-157. -/
def main (env : Env) : Outcome := registerAndJoin env (setUp env)

/-- The `(provider, id)` pairs of the `addEntity` calls, in call order. -/
def boundIds (t : List Call) : List (Provider × Nat) := t.filterMap Call.boundId

/-- The text providers created, in creation order. -/
def createdTextProviders (t : List Call) : List (Provider × String) :=
  t.filterMap Call.createdTextProvider

/-- The name, type and returned id of an `addPowerEntity` call. -/
def Call.registration : Call → Option (String × PowerEntityType × Nat)
  | .addPowerEntity name type ret => some (name, type, ret)
  | _ => none

/-- The `addPowerEntity` calls with their returned ids, in call order. -/
def registrations (t : List Call) : List (String × PowerEntityType × Nat) :=
  t.filterMap Call.registration

/-- Whether a call is `service->addStateResidencyDataProvider(p)`. -/
def Call.attaches (p : Provider) : Call → Bool
  | .addStateResidencyDataProvider q => q == p
  | _ => false

/-- No call satisfying `g` comes after a call satisfying `f`. -/
def noLater (f g : Call → Bool) : List Call → Bool
  | [] => true
  | c :: rest => (!f c || rest.all (fun d => !g d)) && noLater f g rest

/-! ## Theorems -/

/-- C1: on every `uint64_t` value `a`, `rpmConvertToMs a` is the truncated
quotient of `a` by 19200: it is the unique `q` with
`19200 * q ≤ a < 19200 * (q + 1)`, it equals the unbounded quotient (no
wrap-around), and a multiple `19200 * k` gives exactly `k`. -/
theorem rpmConvertToMs_truncating (a : Nat) (ha : a < U64) :
    19200 * rpmConvertToMs a ≤ a ∧ a < 19200 * (rpmConvertToMs a + 1) ∧
    (∀ q : Nat, 19200 * q ≤ a → a < 19200 * (q + 1) → q = rpmConvertToMs a) ∧
    rpmConvertToMs a = a / 19200 ∧ rpmConvertToMs a < U64 ∧
    (∀ k : Nat, a = 19200 * k → rpmConvertToMs a = k) := by
  have hq : rpmConvertToMs a = a / 19200 := by
    unfold rpmConvertToMs RPM_CLK
    apply Nat.mod_eq_of_lt
    exact lt_of_le_of_lt (Nat.div_le_self a 19200) ha
  have hlt : a / 19200 < U64 := lt_of_le_of_lt (Nat.div_le_self a 19200) ha
  rw [hq]
  refine ⟨?_, ?_, ?_, rfl, hlt, ?_⟩
  · omega
  · omega
  · intro q h1 h2
    omega
  · intro k hk
    omega

/-- Witness of C1 at `a = 38401`, one tick past two full milliseconds. -/
theorem rpmConvertToMs_truncating_witness :
    (38401 : Nat) < U64 ∧ rpmConvertToMs 38401 = 2 :=
  ⟨by decide, by
    have h := rpmConvertToMs_truncating 38401 (by decide)
    rw [h.2.2.2.1]⟩

/-- C6: every state configuration of `rpmStateResidencyConfigs` and
`socStateResidencyConfigs` has a non-empty name, a non-empty prefix for each
supported field, and a transform only on supported fields. -/
theorem main_configs_wellFormed (c : StateResidencyConfig)
    (hc : c ∈ rpmStateResidencyConfigs ++ socStateResidencyConfigs) :
    c.WellFormed := by
  simp only [rpmStateResidencyConfigs, socStateResidencyConfigs, List.cons_append,
    List.nil_append, List.mem_cons, List.mem_singleton, List.not_mem_nil, or_false] at hc
  rcases hc with h | h | h <;> subst h <;>
    simp [StateResidencyConfig.WellFormed]

/-- Witness of C6 at the `VMIN` state of the SoC entity. -/
theorem main_configs_wellFormed_witness :
    StateResidencyConfig.WellFormed
      { name := "VMIN", header := "RPM Mode:vmin", entryCountSupported := true,
        entryCountPrefix := "count:", totalTimeSupported := true,
        totalTimePrefix := "actual last sleep(msec):", lastEntrySupported := false } :=
  main_configs_wellFormed _ (by simp [rpmStateResidencyConfigs, socStateResidencyConfigs])

/-- Symbolic execution of the `if (isDebuggable)` block from any state: the
calls it makes and the objects it leaves behind. -/
theorem debuggableBlock_eq (n : Nat) (es : List PowerEntityInfo) (ps : List Provider)
    (r so : Option GenericStateResidencyDataProvider)
    (ai : Option AidlStateResidencyDataProvider) (t : List Call) :
    debuggableBlock ⟨⟨n, es, ps⟩, r, so, ai, t⟩ =
      ⟨⟨n + 6,
        es ++ [⟨n, "APSS", .SUBSYSTEM⟩, ⟨n + 1, "MPSS", .SUBSYSTEM⟩,
          ⟨n + 2, "PRONTO", .SUBSYSTEM⟩, ⟨n + 3, "LPASS", .SUBSYSTEM⟩,
          ⟨n + 4, "TZ", .SUBSYSTEM⟩, ⟨n + 5, "SoC", .POWER_DOMAIN⟩],
        ps ++ [.rpmSdp, .socSdp]⟩,
       some ⟨"/d/rpm_master_stats",
        [(n, ⟨"APSS", rpmStateResidencyConfigs⟩), (n + 1, ⟨"MPSS", rpmStateResidencyConfigs⟩),
         (n + 2, ⟨"PRONTO", rpmStateResidencyConfigs⟩),
         (n + 3, ⟨"LPASS", rpmStateResidencyConfigs⟩),
         (n + 4, ⟨"TZ", rpmStateResidencyConfigs⟩)]⟩,
       some ⟨"/sys/power/system_sleep/stats", [(n + 5, ⟨"", socStateResidencyConfigs⟩)]⟩,
       ai,
       t ++ [.newGenericProvider .rpmSdp "/d/rpm_master_stats",
         .addPowerEntity "APSS" .SUBSYSTEM n,
         .addEntity .rpmSdp n ⟨"APSS", rpmStateResidencyConfigs⟩,
         .addPowerEntity "MPSS" .SUBSYSTEM (n + 1),
         .addEntity .rpmSdp (n + 1) ⟨"MPSS", rpmStateResidencyConfigs⟩,
         .addPowerEntity "PRONTO" .SUBSYSTEM (n + 2),
         .addEntity .rpmSdp (n + 2) ⟨"PRONTO", rpmStateResidencyConfigs⟩,
         .addPowerEntity "LPASS" .SUBSYSTEM (n + 3),
         .addEntity .rpmSdp (n + 3) ⟨"LPASS", rpmStateResidencyConfigs⟩,
         .addPowerEntity "TZ" .SUBSYSTEM (n + 4),
         .addEntity .rpmSdp (n + 4) ⟨"TZ", rpmStateResidencyConfigs⟩,
         .addStateResidencyDataProvider .rpmSdp,
         .newGenericProvider .socSdp "/sys/power/system_sleep/stats",
         .addPowerEntity "SoC" .POWER_DOMAIN (n + 5),
         .addEntity .socSdp (n + 5) ⟨"", socStateResidencyConfigs⟩,
         .addStateResidencyDataProvider .socSdp]⟩ := by
  simp [debuggableBlock, World.addPowerEntity, World.addEntity, World.newGenericProvider,
    World.addStateResidencyDataProvider, PowerStats.addPowerEntity,
    PowerStats.addStateResidencyDataProvider, GenericStateResidencyDataProvider.addEntity]

/-- The checker `noLater` decides the pairwise ordering property. -/
theorem noLater_sound (f g : Call → Bool) (l : List Call) (h : noLater f g l = true) :
    l.Pairwise (fun a b => f a = true → g b = false) := by
  induction l with
  | nil => exact List.Pairwise.nil
  | cons c rest ih =>
    simp only [noLater, Bool.and_eq_true, Bool.or_eq_true, Bool.not_eq_true',
      List.all_eq_true] at h
    refine List.Pairwise.cons ?_ (ih h.2)
    intro b hb hf
    rcases h.1 with h1 | h1
    · rw [hf] at h1; exact absurd h1 (by decide)
    · exact h1 b hb

/-- The calls and the exit code of the registration part, from any state. -/
theorem registerAndJoin_eq (env : Env) (sv : PowerStats)
    (r so : Option GenericStateResidencyDataProvider)
    (ai : Option AidlStateResidencyDataProvider) (t : List Call) :
    registerAndJoin env ⟨sv, r, so, ai, t⟩ =
      if env.serviceStatus = OK then
        if env.status = OK then
          if env.joinReturns = true then
            ⟨some 1, ⟨sv.addStateResidencyDataProvider .aidlSdp, r, so, ai,
              t ++ [.addService "power.stats-vendor" .aidlSdp, .startThreadPool,
                .addStateResidencyDataProvider .aidlSdp, .configureRpcThreadpool 1 true,
                .registerAsService, .ALOGI "power.stats service is ready",
                .joinRpcThreadpool, .ALOGE "power.stats service is shutting down"]⟩⟩
          else
            ⟨none, ⟨sv.addStateResidencyDataProvider .aidlSdp, r, so, ai,
              t ++ [.addService "power.stats-vendor" .aidlSdp, .startThreadPool,
                .addStateResidencyDataProvider .aidlSdp, .configureRpcThreadpool 1 true,
                .registerAsService, .ALOGI "power.stats service is ready",
                .joinRpcThreadpool]⟩⟩
        else
          ⟨some 1, ⟨sv.addStateResidencyDataProvider .aidlSdp, r, so, ai,
            t ++ [.addService "power.stats-vendor" .aidlSdp, .startThreadPool,
              .addStateResidencyDataProvider .aidlSdp, .configureRpcThreadpool 1 true,
              .registerAsService,
              .ALOGE "Could not register service for power.stats HAL Iface (%d), exiting."]⟩⟩
      else
        ⟨some 1, ⟨sv, r, so, ai,
          t ++ [.addService "power.stats-vendor" .aidlSdp,
            .ALOGE "Unable to register power.stats-vendor service %d"]⟩⟩ := by
  by_cases h1 : env.serviceStatus = OK <;> by_cases h2 : env.status = OK <;>
    cases h3 : env.joinReturns <;>
    simp [registerAndJoin, World.emit, World.addStateResidencyDataProvider, h1, h2, h3]

/-- Symbolic execution of `setUp`: the state in which the registration part
starts. -/
theorem setUp_eq (env : Env) :
    setUp env =
      (if env.getBoolProperty false = true then
        debuggableBlock ⟨⟨env.base, [], []⟩, none, none, none,
          [.initWithDriver "/dev/vndbinder", .ALOGI "power.stats service 1.0 is starting.",
           .getBoolProperty "ro.debuggable" false, .newPowerStats]⟩
       else
        ⟨⟨env.base, [], []⟩, none, none, none,
          [.initWithDriver "/dev/vndbinder", .ALOGI "power.stats service 1.0 is starting.",
           .getBoolProperty "ro.debuggable" false, .newPowerStats]⟩).newAidlProvider
        .aidlSdp := by
  cases h : env.getBoolProperty false <;> simp [setUp, World.emit, h]

/-- C7: a failed `addService` makes `main` return 1 without calling
`registerAsService` or `joinRpcThreadpool`; a failed `registerAsService` makes
it return 1 without calling `joinRpcThreadpool`; `joinRpcThreadpool` is called
exactly when both statuses are `OK`; and whenever `main` returns, it returns 1. -/
theorem main_transport_failure_exits (env : Env) :
    (env.serviceStatus ≠ OK →
      (main env).exit = some 1 ∧ Call.registerAsService ∉ (main env).world.trace ∧
        Call.joinRpcThreadpool ∉ (main env).world.trace) ∧
    (env.serviceStatus = OK → env.status ≠ OK →
      (main env).exit = some 1 ∧ Call.registerAsService ∈ (main env).world.trace ∧
        Call.joinRpcThreadpool ∉ (main env).world.trace) ∧
    (Call.joinRpcThreadpool ∈ (main env).world.trace ↔
      env.serviceStatus = OK ∧ env.status = OK) ∧
    (Call.registerAsService ∈ (main env).world.trace ↔ env.serviceStatus = OK) ∧
    Call.addService "power.stats-vendor" .aidlSdp ∈ (main env).world.trace ∧
    ((main env).exit = none ↔
      env.serviceStatus = OK ∧ env.status = OK ∧ env.joinReturns = false) ∧
    ((main env).exit = some 1 ∨ (main env).exit = none) := by
  rw [main, setUp_eq]
  cases env.getBoolProperty false <;>
    simp only [reduceIte, Bool.false_eq_true,
      debuggableBlock_eq, World.newAidlProvider, registerAndJoin_eq] <;>
    split_ifs <;> simp_all

/-- Witness of C7 with `addService` returning -1 in the debuggable
configuration. -/
theorem main_transport_failure_exits_witness :
    (main ⟨some true, 0, -1, 0, false⟩).exit = some 1 ∧
    Call.registerAsService ∉ (main ⟨some true, 0, -1, 0, false⟩).world.trace ∧
    Call.joinRpcThreadpool ∉ (main ⟨some true, 0, -1, 0, false⟩).world.trace :=
  (main_transport_failure_exits ⟨some true, 0, -1, 0, false⟩).1 (by decide)

/-- C8: on every run of `main`, no `addPowerEntity`, `addEntity` or
`addStateResidencyDataProvider` call comes after `registerAsService` (for any
two positions of the call sequence, if the earlier call is `registerAsService`
the later one is not a configuration write), every configuration write made is
therefore before it, and `registerAsService` is called at most once; when
`addService` succeeded, `registerAsService` is called and the AIDL provider was
attached. -/
theorem main_config_before_serving (env : Env) :
    (main env).world.trace.Pairwise
      (fun a b => a.isRegisterAsService = true → b.isConfigWrite = false) ∧
    (main env).world.trace.Pairwise
      (fun a b => a.isRegisterAsService = true → b.isRegisterAsService = false) ∧
    ((main env).world.trace.filter Call.isRegisterAsService).length ≤ 1 ∧
    (env.serviceStatus = OK →
      Call.registerAsService ∈ (main env).world.trace ∧
      Call.addStateResidencyDataProvider .aidlSdp ∈ (main env).world.trace) := by
  rw [main, setUp_eq]
  cases env.getBoolProperty false <;>
    simp only [reduceIte, Bool.false_eq_true,
      debuggableBlock_eq, World.newAidlProvider, registerAndJoin_eq] <;>
    split_ifs <;>
    exact ⟨noLater_sound _ _ _ rfl, noLater_sound _ _ _ rfl, by
      simp [Call.isRegisterAsService], by simp_all⟩

/-- Witness of C8 in the debuggable configuration with both registrations
succeeding: the call sequence holds `registerAsService` and the attachment of
the AIDL provider. -/
theorem main_config_before_serving_witness :
    Call.registerAsService ∈ (main ⟨some true, 0, 0, 0, false⟩).world.trace ∧
    Call.addStateResidencyDataProvider .aidlSdp ∈
      (main ⟨some true, 0, 0, 0, false⟩).world.trace :=
  (main_config_before_serving ⟨some true, 0, 0, 0, false⟩).2.2.2 (by decide)

/-- C9 fails as stated: with `ro.debuggable` unset and both registrations
succeeding, `addStateResidencyDataProvider(aidlSdp)` is called after
`addService` and `startThreadPool`. -/
theorem main_config_before_publish_counterexample :
    ¬ (main ⟨none, 0, 0, 0, false⟩).world.trace.Pairwise
      (fun a b => a.isPublish = true → b.isConfigWrite = false) := by
  rw [main, setUp_eq]
  simp [Env.getBoolProperty, registerAndJoin_eq, World.newAidlProvider, OK, Call.isPublish,
    Call.isConfigWrite]

/-- C9 as amended: on every run of `main`, every `addPowerEntity` and
`addEntity` call and the attachment of the two text providers come before the
first of `addService`, `startThreadPool` and `registerAsService`; the
attachment of the AIDL provider is made only after `addService` and
`startThreadPool` were called, and the only publishing call after it is
`registerAsService`. -/
theorem main_text_config_before_publish (env : Env) :
    (main env).world.trace.Pairwise
      (fun a b => a.isPublish = true → b.isTextConfigWrite = false) ∧
    (main env).world.trace.Pairwise
      (fun a b => a.attaches .aidlSdp = true →
        (b.isPublish && !b.isRegisterAsService) = false) ∧
    (main env).world.trace.Pairwise
      (fun a b => a.isRegisterAsService = true → b.attaches .aidlSdp = false) ∧
    (Call.addStateResidencyDataProvider .aidlSdp ∈ (main env).world.trace →
      Call.addService "power.stats-vendor" .aidlSdp ∈ (main env).world.trace ∧
      Call.startThreadPool ∈ (main env).world.trace) := by
  rw [main, setUp_eq]
  cases env.getBoolProperty false <;>
    simp only [reduceIte, Bool.false_eq_true,
      debuggableBlock_eq, World.newAidlProvider, registerAndJoin_eq] <;>
    split_ifs <;>
    exact ⟨noLater_sound _ _ _ rfl, noLater_sound _ (fun b => b.isPublish &&
      !b.isRegisterAsService) _ rfl, noLater_sound _ _ _ rfl, by simp⟩

/-- Witness of amended C9 in the debuggable configuration with both
registrations succeeding. -/
theorem main_text_config_before_publish_witness :
    Call.addService "power.stats-vendor" .aidlSdp ∈
      (main ⟨some true, 0, 0, 0, false⟩).world.trace ∧
    Call.startThreadPool ∈ (main ⟨some true, 0, 0, 0, false⟩).world.trace :=
  (main_text_config_before_publish ⟨some true, 0, 0, 0, false⟩).2.2.2
    (by rw [main, setUp_eq]
        simp [Env.getBoolProperty, debuggableBlock_eq, registerAndJoin_eq,
          World.newAidlProvider, OK])

/-- C10: when `ro.debuggable` is false or unset, `main` makes no
`addPowerEntity` or `addEntity` call and creates no text provider, the entity
list stays empty, and the only provider ever attached is the AIDL provider
(attached once `addService` succeeded), which holds no binding; the six
entities and the two text providers exist exactly when `ro.debuggable` is
true. -/
theorem main_not_debuggable_registers_nothing (env : Env) :
    (env.roDebuggable ≠ some true →
      registrations (main env).world.trace = [] ∧
      boundIds (main env).world.trace = [] ∧
      createdTextProviders (main env).world.trace = [] ∧
      (main env).world.service.listEntities = [] ∧
      (main env).world.rpmSdp = none ∧ (main env).world.socSdp = none ∧
      (main env).world.service.providers =
        (if env.serviceStatus = OK then [.aidlSdp] else []) ∧
      (main env).world.aidlSdp.map (·.bindings) = some []) ∧
    (env.getBoolProperty false = true ↔ env.roDebuggable = some true) ∧
    ((registrations (main env).world.trace).length = 6 ↔ env.roDebuggable = some true) ∧
    ((main env).world.service.listEntities.length = 6 ↔ env.roDebuggable = some true) ∧
    (createdTextProviders (main env).world.trace =
        [(.rpmSdp, "/d/rpm_master_stats"), (.socSdp, "/sys/power/system_sleep/stats")] ↔
      env.roDebuggable = some true) ∧
    (((main env).world.rpmSdp.isSome = true ∧ (main env).world.socSdp.isSome = true) ↔
      env.roDebuggable = some true) := by
  obtain ⟨dbg, base, ss, st, jr⟩ := env
  rw [main, setUp_eq]
  rcases dbg with _ | _ | _ <;>
    simp only [Env.getBoolProperty, Option.getD, reduceIte, Bool.false_eq_true,
      debuggableBlock_eq, World.newAidlProvider, registerAndJoin_eq] <;>
    split_ifs <;>
    simp_all [registrations, boundIds, createdTextProviders,
      PowerStats.addStateResidencyDataProvider, PowerStats.listEntities,
      Call.registration, Call.boundId, Call.createdTextProvider]

/-- Witness of C10 with `ro.debuggable` unset and both registrations
succeeding. -/
theorem main_not_debuggable_registers_nothing_witness :
    (main ⟨none, 0, 0, 0, false⟩).world.service.listEntities = [] ∧
    (main ⟨none, 0, 0, 0, false⟩).world.service.providers = [.aidlSdp] :=
  have h := (main_not_debuggable_registers_nothing ⟨none, 0, 0, 0, false⟩).1 (by decide)
  ⟨h.2.2.2.1, by simpa [OK] using h.2.2.2.2.2.2.1⟩

/-! ### Parsing rules -/

/-- A decimal digit character is a digit and carries its value. -/
theorem digitChar_spec (k : Nat) (hk : k < 10) :
    (Nat.digitChar k).isDigit = true ∧ (Nat.digitChar k).toNat - 48 = k := by
  interval_cases k <;> exact ⟨by decide, by decide⟩

/-- Appending one character to a digit string. -/
theorem decimalValue_append_singleton (xs : List Char) (d : Char) :
    decimalValue (xs ++ [d]) = 10 * decimalValue xs + (d.toNat - 48) := by
  simp [decimalValue, List.foldl_append]

/-- The digits produced by `Nat.toDigitsCore` in base ten: a non-empty string
of digit characters whose value is the number rendered, put before the
accumulator. -/
theorem toDigitsCore_spec (fuel : Nat) :
    ∀ (n : Nat) (ds : List Char), n < fuel →
      ∃ xs, Nat.toDigitsCore 10 fuel n ds = xs ++ ds ∧ xs ≠ [] ∧
        (∀ c ∈ xs, c.isDigit = true) ∧ decimalValue xs = n := by
  induction fuel with
  | zero => intro n ds h; omega
  | succ fuel ih =>
    intro n ds h
    have hd := digitChar_spec (n % 10) (Nat.mod_lt _ (by decide))
    by_cases h0 : n / 10 = 0
    · refine ⟨[Nat.digitChar (n % 10)], ?_, by simp, ?_, ?_⟩
      · simp [Nat.toDigitsCore, h0]
      · intro c hc
        simp only [List.mem_singleton] at hc
        rw [hc]; exact hd.1
      · simp only [decimalValue, List.foldl_cons, List.foldl_nil]
        omega
    · obtain ⟨xs, hxs, _, hdig, hval⟩ :=
        ih (n / 10) (Nat.digitChar (n % 10) :: ds) (by omega)
      refine ⟨xs ++ [Nat.digitChar (n % 10)], ?_, by simp, ?_, ?_⟩
      · simp [Nat.toDigitsCore, h0, hxs]
      · intro c hc
        rcases List.mem_append.1 hc with hc | hc
        · exact hdig c hc
        · simp only [List.mem_singleton] at hc
          rw [hc]; exact hd.1
      · rw [decimalValue_append_singleton, hval]
        omega

/-- Parsing the decimal rendering of a `uint64_t` value gives the value back. -/
theorem parseUnsigned_toDigits (v : Nat) (hv : v < U64) :
    parseUnsigned (Nat.toDigits 10 v) = some v := by
  obtain ⟨xs, hxs, hne, hdig, hval⟩ := toDigitsCore_spec (v + 1) v [] (by omega)
  have hx : Nat.toDigits 10 v = xs := by
    unfold Nat.toDigits
    rw [hxs, List.append_nil]
  rw [hx, parseUnsigned, if_pos ⟨hne, List.all_eq_true.2 hdig, by rw [hval]; exact hv⟩, hval]

/-- The scan returns the text trailing the prefix on the first line that
begins with it. -/
theorem findLine_first (p r : List Char) (pre post : List (List Char))
    (hpre : ∀ l ∈ pre, ¬ p <+: l) :
    findLine p (pre ++ (p ++ r) :: post) = some r := by
  induction pre with
  | nil => simp [findLine]
  | cons l pre ih =>
    have hl : ¬ p <+: l := hpre l (List.mem_cons_self _ _)
    have hrest : ∀ l ∈ pre, ¬ p <+: l := fun l h => hpre l (List.mem_cons_of_mem _ h)
    simp [findLine, hl, ih hrest]

/-- A supported field whose first matching line carries the decimal rendering
of `v` is the transform of `v`. -/
theorem extractField_firstValue (p : String) (tr : Option (Nat → Nat)) (v : Nat)
    (scope : List (List Char)) (hv : v < U64) (h : FirstValue p v scope) :
    extractField true p tr scope = some (match tr with | some f => f v | none => v) := by
  obtain ⟨pre, post, hls, hpre⟩ := h
  subst hls
  simp only [extractField, if_true, findLine_first _ _ _ _ hpre, parseUnsigned_toDigits v hv]
  cases tr <;> rfl

/-- The header's section is what the scoping rule selects. -/
theorem sectionAfter_of_isSection (headers : List (List Char)) (h : String)
    (sec ls : List (List Char)) (hs : IsSection headers h sec ls) :
    sectionAfter headers h.toList ls = sec := by
  obtain ⟨pre, hl, rest, hls, hhl, hpre, hsec, hrest⟩ := hs
  subst hls
  generalize h.toList = hh at hhl hpre ⊢
  have htake : (sec ++ rest).takeWhile (fun x => !isHeaderLine headers x) = sec := by
    induction sec with
    | nil =>
      rcases hrest with hr | ⟨r, rs, hr, h', hh', hp⟩
      · simp [hr]
      · subst hr
        have : isHeaderLine headers r = true := by
          simp only [isHeaderLine, List.any_eq_true]
          exact ⟨h', hh', by simpa using hp⟩
        simp [List.takeWhile, this]
    | cons l sec ih =>
      have hl' : isHeaderLine headers l = false := by
        rw [Bool.eq_false_iff]
        intro hc
        simp only [isHeaderLine, List.any_eq_true] at hc
        obtain ⟨h', hh', hp⟩ := hc
        exact hsec l (List.mem_cons_self _ _) h' hh' (by simpa using hp)
      have := ih (fun l hl => hsec l (List.mem_cons_of_mem _ hl))
      simp [List.takeWhile, hl', this]
  induction pre with
  | nil => simp [sectionAfter, hhl, htake]
  | cons l pre ih =>
    have hl' : ¬ hh <+: l := hpre l (List.mem_cons_self _ _)
    simp [sectionAfter, hl', ih (fun l hl => hpre l (List.mem_cons_of_mem _ hl))]

/-- A state with a header is parsed from its header's section alone. -/
theorem parseState_of_isSection (headers : List (List Char)) (cfg : StateResidencyConfig)
    (sec ls : List (List Char)) (hne : cfg.header ≠ "")
    (hs : IsSection headers cfg.header sec ls) :
    parseState headers cfg ls =
      ⟨cfg.name,
       extractField cfg.entryCountSupported cfg.entryCountPrefix cfg.entryCountTransform sec,
       extractField cfg.totalTimeSupported cfg.totalTimePrefix cfg.totalTimeTransform sec,
       extractField cfg.lastEntrySupported cfg.lastEntryPrefix cfg.lastEntryTransform sec⟩ := by
  have h : stateScope headers cfg ls = sec := by
    rw [stateScope, if_neg hne]
    exact sectionAfter_of_isSection _ _ _ _ hs
  rw [parseState, h]

/-- C2: the RPM state `XO_shutdown`, on any source text whose first
`xo_count:`, `xo_accumulated_duration:` and `xo_last_entered_at:` lines carry
the `uint64_t` integers `c`, `t` and `l`, has entry count `c`, total time
`t / 19200` and last-entry time `l / 19200`; each SoC state, whose section
carries `c` after `count:` and `t` after `actual last sleep(msec):`, has entry
count `c` and total time `t` unchanged and no last-entry time; and the spec's
scenario (`count:` / `time:` with total time divided by 10) gives entry count 5
and total time 10 on `count:5`, `time:100`. -/
theorem parsed_fields_are_transformed_integers (text : List Char) (c t l : Nat)
    (hc : c < U64) (ht : t < U64) (hl : l < U64) :
    (FirstValue "xo_count:" c (splitLines text) →
      FirstValue "xo_accumulated_duration:" t (splitLines text) →
      FirstValue "xo_last_entered_at:" l (splitLines text) →
      parseStates rpmStateResidencyConfigs text =
        [⟨"XO_shutdown", some c, some (t / 19200), some (l / 19200)⟩] ∧
      t / 19200 = rpmConvertToMs t ∧ l / 19200 = rpmConvertToMs l) ∧
    (∀ cfg ∈ socStateResidencyConfigs, ∀ sec : List (List Char),
      IsSection (headersOf socStateResidencyConfigs) cfg.header sec (splitLines text) →
      FirstValue "count:" c sec → FirstValue "actual last sleep(msec):" t sec →
      parseState (headersOf socStateResidencyConfigs) cfg (splitLines text) =
        ⟨cfg.name, some c, some t, none⟩) ∧
    parseStates [scenarioConfig] "count:5\ntime:100\n".toList =
      [⟨"X", some 5, some 10, none⟩] := by
  refine ⟨?_, ?_, by decide⟩
  · intro h1 h2 h3
    have e1 := extractField_firstValue "xo_count:" none c _ hc h1
    have e2 := extractField_firstValue "xo_accumulated_duration:" (some rpmConvertToMs) t _ ht h2
    have e3 := extractField_firstValue "xo_last_entered_at:" (some rpmConvertToMs) l _ hl h3
    have q : ∀ a, a < U64 → rpmConvertToMs a = a / 19200 := by
      intro a ha
      unfold rpmConvertToMs RPM_CLK
      exact Nat.mod_eq_of_lt (lt_of_le_of_lt (Nat.div_le_self a 19200) ha)
    simp only [q t ht, q l hl] at e2 e3
    refine ⟨?_, (q t ht).symm, (q l hl).symm⟩
    simp only [parseStates, rpmStateResidencyConfigs, List.map_cons, List.map_nil, parseState,
      stateScope, if_true, e1, e2, e3]
  · intro cfg hcfg sec hsec h1 h2
    have e1 : extractField true "count:" none sec = some c :=
      extractField_firstValue "count:" none c _ hc h1
    have e2 : extractField true "actual last sleep(msec):" none sec = some t :=
      extractField_firstValue "actual last sleep(msec):" none t _ ht h2
    simp only [socStateResidencyConfigs, List.mem_cons, List.mem_singleton, List.not_mem_nil,
      or_false] at hcfg
    rcases hcfg with h | h <;> subst h <;>
      rw [parseState_of_isSection _ _ _ _ (by decide) hsec]
    · show (⟨"XO_shutdown", extractField true "count:" none sec,
        extractField true "actual last sleep(msec):" none sec,
        extractField false "" none sec⟩ : StateResidencyResult) = _
      rw [e1, e2]; rfl
    · show (⟨"VMIN", extractField true "count:" none sec,
        extractField true "actual last sleep(msec):" none sec,
        extractField false "" none sec⟩ : StateResidencyResult) = _
      rw [e1, e2]; rfl

/-- Witness of C2 on an RPM text with 7 entries, 38401 ticks in total and a
last entry at tick 19200. -/
theorem parsed_fields_are_transformed_integers_witness :
    parseStates rpmStateResidencyConfigs
        "xo_count:7\nxo_accumulated_duration:38401\nxo_last_entered_at:19200\n".toList =
      [⟨"XO_shutdown", some 7, some 2, some 1⟩] :=
  ((parsed_fields_are_transformed_integers
      "xo_count:7\nxo_accumulated_duration:38401\nxo_last_entered_at:19200\n".toList
      7 38401 19200 (by decide) (by decide) (by decide)).1
    ⟨[], ["xo_accumulated_duration:38401".toList, "xo_last_entered_at:19200".toList, []],
      by decide, by decide⟩
    ⟨["xo_count:7".toList], ["xo_last_entered_at:19200".toList, []], by decide, by decide⟩
    ⟨["xo_count:7".toList, "xo_accumulated_duration:38401".toList], [[]],
      by decide, by decide⟩).1

/-- The text trailing the prefix that the scan returns comes from a line of
the scope that begins with the prefix. -/
theorem findLine_mem (p r : List Char) (ls : List (List Char))
    (h : findLine p ls = some r) : ∃ l ∈ ls, p <+: l ∧ r = l.drop p.length := by
  induction ls with
  | nil => simp [findLine] at h
  | cons l ls ih =>
    by_cases hp : p <+: l
    · have hb : p.isPrefixOf l = true := by simpa using hp
      simp only [findLine, hb, if_true, Option.some.injEq] at h
      exact ⟨l, List.mem_cons_self _ _, hp, h.symm⟩
    · have hb : p.isPrefixOf l = false := by
        rw [Bool.eq_false_iff]; simpa using hp
      simp only [findLine, hb, Bool.false_eq_true, if_false] at h
      obtain ⟨l', hl', h1, h2⟩ := ih h
      exact ⟨l', List.mem_cons_of_mem _ hl', h1, h2⟩

/-- A field without transform that is present was parsed on a line of the
scope that begins with the prefix. -/
theorem extractField_mem (p : String) (v : Nat) (scope : List (List Char))
    (h : extractField true p none scope = some v) :
    ∃ l ∈ scope, p.toList <+: l ∧ parseUnsigned (l.drop p.toList.length) = some v := by
  unfold extractField at h
  rw [if_pos rfl] at h
  generalize p.toList = q at h ⊢
  cases hf : findLine q scope with
  | none => simp [hf] at h
  | some r =>
    obtain ⟨l, hl, h1, h2⟩ := findLine_mem _ _ _ hf
    refine ⟨l, hl, h1, ?_⟩
    rw [← h2]
    cases hp : parseUnsigned r with
    | none => simp [hf, hp] at h
    | some w => simpa [hf, hp] using h

/-- Every list of lines splits into a run of lines that carry no header and a
rest that is empty or starts with a header line. -/
theorem split_at_next_header (headers : List (List Char)) (ls : List (List Char)) :
    ∃ sec rest, ls = sec ++ rest ∧ (∀ l ∈ sec, ∀ h' ∈ headers, ¬ h' <+: l) ∧
      (rest = [] ∨ ∃ r rs, rest = r :: rs ∧ ∃ h' ∈ headers, h' <+: r) := by
  induction ls with
  | nil => exact ⟨[], [], rfl, by simp, Or.inl rfl⟩
  | cons l ls ih =>
    by_cases hl : ∃ h' ∈ headers, h' <+: l
    · exact ⟨[], l :: ls, rfl, by simp, Or.inr ⟨l, ls, rfl, hl⟩⟩
    · obtain ⟨sec, rest, hls, hsec, hrest⟩ := ih
      refine ⟨l :: sec, rest, by rw [hls]; rfl, ?_, hrest⟩
      intro x hx h' hh' hp
      rcases List.mem_cons.1 hx with hx | hx
      · exact hl ⟨h', hh', hx ▸ hp⟩
      · exact hsec x hx h' hh' hp

/-- A text with a line that begins with the header has a section for it. -/
theorem isSection_exists (headers : List (List Char)) (h : String) (ls : List (List Char))
    (hex : ∃ l ∈ ls, h.toList <+: l) : ∃ sec, IsSection headers h sec ls := by
  induction ls with
  | nil => obtain ⟨l, hl, _⟩ := hex; simp at hl
  | cons l ls ih =>
    by_cases hp : h.toList <+: l
    · obtain ⟨sec, rest, hls, hsec, hrest⟩ := split_at_next_header headers ls
      exact ⟨sec, [], l, rest, by rw [hls]; rfl, hp, by simp, hsec, hrest⟩
    · have hex' : ∃ l' ∈ ls, h.toList <+: l' := by
        obtain ⟨l', hl', hp'⟩ := hex
        rcases List.mem_cons.1 hl' with e | e
        · exact absurd (e ▸ hp') hp
        · exact ⟨l', e, hp'⟩
      obtain ⟨sec, pre, hl, rest, hls, hhl, hpre, hsec, hrest⟩ := ih hex'
      refine ⟨sec, l :: pre, hl, rest, by rw [hls]; rfl, hhl, ?_, hsec, hrest⟩
      intro x hx
      rcases List.mem_cons.1 hx with e | e
      · rw [e]; exact hp
      · exact hpre x e

/-- C3: the two SoC states are configured with headers `RPM Mode:vlow` and
`RPM Mode:vmin` and the same two prefixes; on every source text, each state
whose header occurs has a section (the lines after its header up to the next
header), its result is computed from that section alone, so two texts with the
same section give the same result whatever stands under the other header, and
an entry count or total time it reports was parsed on a line of its own
section. -/
theorem soc_states_header_scoped (ls : List (List Char)) :
    socStateResidencyConfigs.map
        (fun c => (c.name, c.header, c.entryCountPrefix, c.totalTimePrefix)) =
      [("XO_shutdown", "RPM Mode:vlow", "count:", "actual last sleep(msec):"),
       ("VMIN", "RPM Mode:vmin", "count:", "actual last sleep(msec):")] ∧
    (∀ cfg ∈ socStateResidencyConfigs, (∃ l ∈ ls, cfg.header.toList <+: l) →
      ∃ sec, IsSection (headersOf socStateResidencyConfigs) cfg.header sec ls) ∧
    (∀ cfg ∈ socStateResidencyConfigs, ∀ sec : List (List Char),
      IsSection (headersOf socStateResidencyConfigs) cfg.header sec ls →
      parseState (headersOf socStateResidencyConfigs) cfg ls =
          ⟨cfg.name, extractField true "count:" none sec,
            extractField true "actual last sleep(msec):" none sec, none⟩ ∧
        (∀ ls' : List (List Char),
          IsSection (headersOf socStateResidencyConfigs) cfg.header sec ls' →
          parseState (headersOf socStateResidencyConfigs) cfg ls' =
            parseState (headersOf socStateResidencyConfigs) cfg ls) ∧
        (∀ v, (parseState (headersOf socStateResidencyConfigs) cfg ls).entryCount = some v →
          ∃ l ∈ sec, "count:".toList <+: l ∧ parseUnsigned (l.drop 6) = some v) ∧
        (∀ v, (parseState (headersOf socStateResidencyConfigs) cfg ls).totalTime = some v →
          ∃ l ∈ sec, "actual last sleep(msec):".toList <+: l ∧
            parseUnsigned (l.drop 24) = some v)) := by
  refine ⟨by decide, ?_, ?_⟩
  · intro cfg _ hex
    exact isSection_exists _ _ _ hex
  · intro cfg hcfg sec hsec
    have hne : cfg.header ≠ "" := by
      simp only [socStateResidencyConfigs, List.mem_cons, List.mem_singleton,
        List.not_mem_nil, or_false] at hcfg
      rcases hcfg with h | h <;> subst h <;> decide
    have hparse : ∀ ls' : List (List Char),
        IsSection (headersOf socStateResidencyConfigs) cfg.header sec ls' →
        parseState (headersOf socStateResidencyConfigs) cfg ls' =
          ⟨cfg.name, extractField true "count:" none sec,
            extractField true "actual last sleep(msec):" none sec, none⟩ := by
      intro ls' hs'
      rw [parseState_of_isSection _ _ _ _ hne hs']
      simp only [socStateResidencyConfigs, List.mem_cons, List.mem_singleton,
        List.not_mem_nil, or_false] at hcfg
      rcases hcfg with h | h <;> subst h <;> rfl
    refine ⟨hparse ls hsec, fun ls' hs' => by rw [hparse ls' hs', hparse ls hsec], ?_, ?_⟩
    · intro v hv
      rw [hparse ls hsec] at hv
      exact extractField_mem "count:" v sec hv
    · intro v hv
      rw [hparse ls hsec] at hv
      exact extractField_mem "actual last sleep(msec):" v sec hv

/-- Witness of C3: with no `count:` line under `RPM Mode:vlow`, the state
`XO_shutdown` reports no entry count although `count:3` stands under
`RPM Mode:vmin`, and its total time is the 2 of its own section. -/
theorem soc_states_header_scoped_witness :
    parseState (headersOf socStateResidencyConfigs)
        { name := "XO_shutdown", header := "RPM Mode:vlow", entryCountSupported := true,
          entryCountPrefix := "count:", totalTimeSupported := true,
          totalTimePrefix := "actual last sleep(msec):", lastEntrySupported := false }
        (splitLines ("RPM Mode:vlow\nactual last sleep(msec):2\nRPM Mode:vmin\ncount:3\n" ++
          "actual last sleep(msec):4\n").toList) =
      ⟨"XO_shutdown", none, some 2, none⟩ :=
  ((soc_states_header_scoped
      (splitLines ("RPM Mode:vlow\nactual last sleep(msec):2\nRPM Mode:vmin\ncount:3\n" ++
          "actual last sleep(msec):4\n").toList)).2.2
    { name := "XO_shutdown", header := "RPM Mode:vlow", entryCountSupported := true,
      entryCountPrefix := "count:", totalTimeSupported := true,
      totalTimePrefix := "actual last sleep(msec):", lastEntrySupported := false }
    (by simp [socStateResidencyConfigs])
    ["actual last sleep(msec):2".toList]
    ⟨[], "RPM Mode:vlow".toList,
      ["RPM Mode:vmin".toList, "count:3".toList, "actual last sleep(msec):4".toList, []],
      by decide, by decide, by decide, by decide,
      Or.inr ⟨"RPM Mode:vmin".toList,
        ["count:3".toList, "actual last sleep(msec):4".toList, []], rfl,
        "RPM Mode:vmin".toList, by decide, by decide⟩⟩).1

end PowerStatsService
